import Mathlib

/-
Verification of the ISS tracker epoch data store (iss_tracker.py).

The store is the pair of module globals all_data / state_vector_data.  The
route handlers guard on the truthiness of all_data; in every reachable
lifecycle state (initial fetch, delete_all_data, retrieve_data_again) the
two globals are emptied and refilled together, so the store is modelled as
a single list of state-vector records, and the guard "if not all_data"
becomes a test that the list is empty.

Numeric record fields are Python floats parsed from the feed; they are
modelled as rationals.  The derived geodetic quantities use real-valued
sqrt / atan2 / degree conversion, modelled over the reals.
-/

namespace ISS

/-- One stateVector entry of the feed: the EPOCH string plus position
(X, Y, Z, in km) and velocity (X_DOT, Y_DOT, Z_DOT, in km per s). -/
structure StateVector where
  epoch : String
  x : ℚ
  y : ℚ
  z : ℚ
  x_dot : ℚ
  y_dot : ℚ
  z_dot : ℚ
deriving DecidableEq

/-- MEAN_EARTH_RADIUS = 6371 km (line 16 of the source). -/
noncomputable def MEAN_EARTH_RADIUS : ℝ := 6371

/-- Python int() applied to a short digit string, as a fold over its
characters; faithful to int(s) on well-formed (all-digit) slices, which is
the only way the source applies it to epoch strings. -/
def parseDigits (cs : List Char) : ℤ :=
  cs.foldl (fun acc c => acc * 10 + ((c.toNat : ℤ) - 48)) 0

/-- int(epoch[9:11]) from line 37: the hour-of-day characters of the
epoch string YYYY-DDDTHH:MM:SS.sssZ. -/
def epochHrs (e : String) : ℤ :=
  parseDigits ((e.toList.drop 9).take 2)

/-- int(epoch[12:14]) from line 38: the minute-of-hour characters of the
epoch string. -/
def epochMins (e : String) : ℤ :=
  parseDigits ((e.toList.drop 12).take 2)

/-- Result type for the get_list_of_epochs route (lines 62 to 105).  Each
constructor is one of the distinguishable early-return strings of the
handler; ok carries the epoch list of the success path. -/
inductive EpochsResult where
  | dataDeleted
  | negativeLimit
  | negativeOffset
  | offsetOutOfRange (total : ℕ)
  | ok (epochs : List String)
deriving DecidableEq

/-- The accumulation loop of get_list_of_epochs (lines 92 to 102): walk
the records, skip while offset_count is below offset, stop once
epoch_count reaches limit, otherwise append the EPOCH of the record. -/
def list_epochs_loop (limit offset : ℤ) : List StateVector → ℤ → ℤ → List String
  | [], _, _ => []
  | item :: rest, offset_count, epoch_count =>
    if offset_count < offset then
      list_epochs_loop limit offset rest (offset_count + 1) epoch_count
    else if epoch_count = limit then
      []
    else
      item.epoch :: list_epochs_loop limit offset rest offset_count (epoch_count + 1)

/-- get_list_of_epochs (lines 62 to 105) with limit and offset already
parsed to integers (the ValueError branches of the handler reject
non-integer query strings before this logic runs).  Checks, in source
order: empty store, negative limit, negative offset, offset at or beyond
the record count; then runs the accumulation loop. -/
def get_list_of_epochs (records : List StateVector) (limit offset : ℤ) : EpochsResult :=
  if records.isEmpty then .dataDeleted
  else if limit < 0 then .negativeLimit
  else if offset < 0 then .negativeOffset
  else if (records.length : ℤ) ≤ offset then .offsetOutOfRange records.length
  else .ok (list_epochs_loop limit offset records 0 0)

/-- Result type for get_state_vector (lines 107 to 131): the deleted-data
string, the state vector of the first record whose EPOCH matches, or the
epoch-not-found string. -/
inductive FindResult where
  | dataDeleted
  | found (sv : StateVector)
  | notFound
deriving DecidableEq

/-- get_state_vector (lines 107 to 131): guard on the empty store, then a
linear scan returning the first record whose EPOCH equals the query
exactly; the numeric fields of the returned dictionary are the parsed
fields already carried by the record. -/
def get_state_vector (records : List StateVector) (epoch : String) : FindResult :=
  if records.isEmpty then .dataDeleted
  else
    match records.find? (fun i => i.epoch == epoch) with
    | some i => .found i
    | none => .notFound

/-- Result type for get_speed (lines 133 to 154). -/
inductive SpeedResult where
  | dataDeleted
  | found (units : String) (value : ℝ)
  | notFound

/-- get_speed (lines 133 to 154): guard on the empty store, then a linear
scan; at the first record whose EPOCH matches, return the norm of the
velocity components tagged with units km/s. -/
noncomputable def get_speed (records : List StateVector) (epoch : String) : SpeedResult :=
  if records.isEmpty then .dataDeleted
  else
    match records.find? (fun i => i.epoch == epoch) with
    | some i =>
      .found "km/s" (Real.sqrt ((i.x_dot : ℝ) ^ 2 + (i.y_dot : ℝ) ^ 2 + (i.z_dot : ℝ) ^ 2))
    | none => .notFound

/-- Four-quadrant arctangent, the semantics of math.atan2(y, x) on the
reals (sign conventions of the C library function used by Python; the
degenerate origin maps to 0 as math.atan2(0.0, 0.0) does). -/
noncomputable def atan2 (y x : ℝ) : ℝ :=
  if 0 < x then Real.arctan (y / x)
  else if x < 0 ∧ 0 ≤ y then Real.arctan (y / x) + Real.pi
  else if x < 0 then Real.arctan (y / x) - Real.pi
  else if 0 < y then Real.pi / 2
  else if y < 0 then -(Real.pi / 2)
  else 0

/-- math.degrees: radians times 180 over pi. -/
noncomputable def degrees (r : ℝ) : ℝ := r * 180 / Real.pi

/-- An altitude value tagged with its unit string, as built on line 43. -/
structure ValueUnits where
  value : ℝ
  units : String

/-- The geodata dictionary built by convert_j2k_to_geoposition: latitude,
longitude, and the unit-tagged altitude. -/
structure Geodata where
  latitude : ℝ
  longitude : ℝ
  altitude : ValueUnits

/-- convert_j2k_to_geoposition (lines 18 to 46) on a record whose fields
are all present (the except branch of the source fires only when a field
is missing, which a typed record rules out):
latitude is degrees(atan2(z, sqrt(x^2 + y^2))),
longitude is degrees(atan2(y, x)) - ((hrs - 12) + mins/60)*(360/24) + 24
with hrs and mins sliced out of the epoch string,
altitude is sqrt(x^2 + y^2 + z^2) - MEAN_EARTH_RADIUS tagged km. -/
noncomputable def convert_j2k_to_geoposition (sv : StateVector) : Geodata :=
  let x : ℝ := (sv.x : ℝ)
  let y : ℝ := (sv.y : ℝ)
  let z : ℝ := (sv.z : ℝ)
  let hrs : ℤ := epochHrs sv.epoch
  let mins : ℤ := epochMins sv.epoch
  let lat : ℝ := degrees (atan2 z (Real.sqrt (x ^ 2 + y ^ 2)))
  let lon : ℝ :=
    degrees (atan2 y x) - (((hrs : ℝ) - 12) + (mins : ℝ) / 60) * (360 / 24) + 24
  let alt : ℝ := Real.sqrt (x ^ 2 + y ^ 2 + z ^ 2) - MEAN_EARTH_RADIUS
  { latitude := lat, longitude := lon, altitude := { value := alt, units := "km" } }

/-- Result type for the get_location route (lines 256 to 293).
invalidEpoch is the catch-all message returned when the inner
get_state_vector produced a string instead of a record (then the geodata
lookup raises inside the guarded try).  typeError marks the unreachable
arm where the state vector was found but the speed scan was not: the
source would raise an uncaught TypeError there. -/
inductive LocationResult where
  | dataDeleted
  | invalidEpoch
  | typeError
  | ok (latitude longitude : ℝ) (altitude : ValueUnits) (speedUnits : String) (speedValue : ℝ)

/-- get_location (lines 256 to 293) restricted to the core data path: the
empty-store guard, the state-vector lookup, the coordinate transform and
the speed lookup.  The reverse-geocoding call is the external collaborator
outside the core and contributes no data used here. -/
noncomputable def get_location (records : List StateVector) (epoch : String) : LocationResult :=
  if records.isEmpty then .dataDeleted
  else
    match get_state_vector records epoch with
    | .found sv =>
      let g := convert_j2k_to_geoposition sv
      match get_speed records epoch with
      | .found u v => .ok g.latitude g.longitude g.altitude u v
      | _ => .typeError
    | _ => .invalidEpoch

/-- Running state of the closest-epoch scan of get_location_now (lines
311 to 322): prev_diff, closest_epoch, and seconds_from_now, the last as
an Option because the source assigns it only inside the update branch and
it is otherwise an unbound Python local. -/
structure NearestState where
  prevDiff : ℤ
  closestEpoch : String
  secondsFromNow : Option ℤ
deriving DecidableEq

/-- The scan loop of get_location_now (lines 316 to 322).  et abstracts
time.mktime(time.strptime(e[:-5], percent-Y-jT-H:M:S)), the conversion of
an epoch string to whole seconds; now is the reference time.  A record
strictly closer than the running best replaces prev_diff, closest_epoch
and seconds_from_now together; otherwise the state is unchanged. -/
def nearestLoop (et : String → ℤ) (now : ℤ) : List StateVector → NearestState → NearestState
  | [], s => s
  | i :: rest, s =>
    let time_epoch := et i.epoch
    let difference := |now - time_epoch|
    if difference < s.prevDiff then
      nearestLoop et now rest ⟨difference, i.epoch, some (time_epoch - now)⟩
    else
      nearestLoop et now rest s

/-- Result type for the get_location_now route (lines 296 to 349).
nameError marks the path where line 347 reads seconds_from_now without it
ever having been assigned: Python raises NameError and the request fails,
carrying no seconds value. -/
inductive NowResult where
  | dataDeleted
  | nameError (closestEpoch : String)
  | ok (closestEpoch : String) (secondsFromNow : ℤ)
deriving DecidableEq

/-- get_location_now (lines 296 to 349), closest-epoch selection part:
the empty-store guard, the initial state built from the first record
(prev_diff from its time distance, closest_epoch its EPOCH, and
seconds_from_now unassigned), the scan over the whole record list, and
the use of seconds_from_now on line 347.  The location assembly that
follows reuses get_state_vector, convert_j2k_to_geoposition and
get_speed on the selected epoch. -/
def get_location_now (et : String → ℤ) (now : ℤ) (records : List StateVector) : NowResult :=
  match records with
  | [] => .dataDeleted
  | first :: rest =>
    let s0 : NearestState := ⟨|now - et first.epoch|, first.epoch, none⟩
    let s := nearestLoop et now (first :: rest) s0
    match s.secondsFromNow with
    | some sec => .ok s.closestEpoch sec
    | none => .nameError s.closestEpoch

/-- Spec formula of section 4.3: latitude = atan2(z, sqrt(x^2 + y^2)) in
degrees.  Stated from the words of the spec, for comparison with the
source translation. -/
noncomputable def spec_latitude (x y z : ℚ) : ℝ :=
  degrees (atan2 (z : ℝ) (Real.sqrt ((x : ℝ) ^ 2 + (y : ℝ) ^ 2)))

/-- Spec formula of section 4.3: longitude = atan2(y, x) - ((hour - 12) +
minute/60) x (360/24) + 24 in degrees, with the hour-of-day and
minute-of-hour components given as integers.  Stated from the words of
the spec. -/
noncomputable def spec_longitude (x y : ℚ) (hour minute : ℤ) : ℝ :=
  degrees (atan2 (y : ℝ) (x : ℝ)) - (((hour : ℝ) - 12) + (minute : ℝ) / 60) * (360 / 24) + 24

/-- Spec formula of section 4.3: altitude = sqrt(x^2 + y^2 + z^2) - 6371
in km.  Stated from the words of the spec. -/
noncomputable def spec_altitude (x y z : ℚ) : ℝ :=
  Real.sqrt ((x : ℝ) ^ 2 + (y : ℝ) ^ 2 + (z : ℝ) ^ 2) - 6371

/-- Spec formula of section 4.3: speed = sqrt(vx^2 + vy^2 + vz^2) in km/s.
Stated from the words of the spec. -/
noncomputable def spec_speed (vx vy vz : ℚ) : ℝ :=
  Real.sqrt ((vx : ℝ) ^ 2 + (vy : ℝ) ^ 2 + (vz : ℝ) ^ 2)

/-- Record at position (7000, 0, 0) whose epoch has hour 12 and minute 0,
the input of the round-trip sanity property of spec section 8. -/
def sv_noon : StateVector :=
  { epoch := "2024-048T12:00:00.000Z", x := 7000, y := 0, z := 0,
    x_dot := 0, y_dot := 0, z_dot := 0 }

/-- Record at position (7000, 0, 0) whose epoch has hour 0 and minute 0,
used to exhibit an out-of-range longitude. -/
def sv_midnight : StateVector :=
  { epoch := "2024-048T00:00:00.000Z", x := 7000, y := 0, z := 0,
    x_dot := 0, y_dot := 0, z_dot := 0 }

/-- A three-record store used as concrete witness input. -/
def wRecords : List StateVector :=
  [ { epoch := "EA", x := 1, y := 1, z := 1, x_dot := 1, y_dot := 1, z_dot := 1 },
    { epoch := "EB", x := 2, y := 2, z := 2, x_dot := 2, y_dot := 2, z_dot := 2 },
    { epoch := "EC", x := 3, y := 3, z := 3, x_dot := 3, y_dot := 3, z_dot := 3 } ]

/-- The first exact match wins in a linear find? scan: if every element of
the front segment fails the predicate and r satisfies it, the scan over
front ++ r :: back returns r. -/
theorem find?_first_match (p : StateVector → Bool) :
    ∀ (l1 : List StateVector) (r : StateVector) (l2 : List StateVector),
      p r = true → (∀ x ∈ l1, p x = false) →
      (l1 ++ r :: l2).find? p = some r := by
  intro l1
  induction l1 with
  | nil =>
    intro r l2 hr _
    simpa using List.find?_cons_of_pos _ hr
  | cons x xs ih =>
    intro r l2 hr hall
    rw [List.cons_append, List.find?_cons_of_neg]
    · exact ih r l2 hr (fun y hy => hall y (List.mem_cons_of_mem x hy))
    · simp [hall x (List.mem_cons_self x xs)]

/-- C8: on a loaded store, FindByEpoch returns the first record in
snapshot order whose epoch is exactly the query string, so with duplicate
epochs the first match wins and a record loaded with epoch e is returned
as that very record; when no record matches, the distinguishable
epoch-not-found result is produced. -/
theorem get_state_vector_first_match :
    (∀ (l1 : List StateVector) (r : StateVector) (l2 : List StateVector) (e : String),
      r.epoch = e → (∀ x ∈ l1, x.epoch ≠ e) →
      get_state_vector (l1 ++ r :: l2) e = .found r) ∧
    (∀ (records : List StateVector) (e : String),
      records ≠ [] → (∀ x ∈ records, x.epoch ≠ e) →
      get_state_vector records e = .notFound) := by
  constructor
  · intro l1 r l2 e hr hl1
    have hfind : (l1 ++ r :: l2).find? (fun i => i.epoch == e) = some r := by
      apply find?_first_match
      · simp [hr]
      · intro x hx
        simp [hl1 x hx]
    have hne : (l1 ++ r :: l2).isEmpty = false := by
      simp [List.isEmpty_eq_false]
    simp [get_state_vector, hne, hfind]
  · intro records e hne hall
    have hfind : records.find? (fun i => i.epoch == e) = none := by
      rw [List.find?_eq_none]
      intro x hx
      simp [hall x hx]
    have hne' : records.isEmpty = false := by
      simpa [List.isEmpty_eq_false] using hne
    simp [get_state_vector, hne', hfind]

/-- Witness for C8: a store with two records of the same epoch returns the
first of them, and a store without the queried epoch reports not found. -/
theorem get_state_vector_first_match_witness :
    get_state_vector
      [ { epoch := "E", x := 1, y := 2, z := 3, x_dot := 4, y_dot := 5, z_dot := 6 },
        { epoch := "E", x := 9, y := 9, z := 9, x_dot := 9, y_dot := 9, z_dot := 9 } ] "E"
      = .found { epoch := "E", x := 1, y := 2, z := 3, x_dot := 4, y_dot := 5, z_dot := 6 } ∧
    get_state_vector
      [ { epoch := "E", x := 1, y := 2, z := 3, x_dot := 4, y_dot := 5, z_dot := 6 } ] "F"
      = .notFound := by
  constructor
  · exact get_state_vector_first_match.1 []
      { epoch := "E", x := 1, y := 2, z := 3, x_dot := 4, y_dot := 5, z_dot := 6 }
      [ { epoch := "E", x := 9, y := 9, z := 9, x_dot := 9, y_dot := 9, z_dot := 9 } ]
      "E" rfl (by simp)
  · exact get_state_vector_first_match.2 _ "F" (by simp) (by decide)

/-- C7: every modelled core query issued against the empty store (the
state after delete_all_data) returns the distinguished deleted-data
condition instead of data: the epoch list, the state-vector lookup, the
speed lookup, the location lookup and the nearest-to-now query. -/
theorem empty_store_queries (limit offset : ℤ) (e : String)
    (et : String → ℤ) (now : ℤ) :
    get_list_of_epochs [] limit offset = .dataDeleted ∧
    get_state_vector [] e = .dataDeleted ∧
    get_speed [] e = .dataDeleted ∧
    get_location [] e = .dataDeleted ∧
    get_location_now et now [] = .dataDeleted :=
  ⟨rfl, rfl, rfl, rfl, rfl⟩

/-- The accumulation loop of get_list_of_epochs computes a drop-then-take
slice of the epoch projection, for in-range counter states. -/
theorem list_epochs_loop_eq (limit offset : ℤ) :
    ∀ (l : List StateVector) (oc ec : ℤ), oc ≤ offset → ec ≤ limit →
      list_epochs_loop limit offset l oc ec =
        ((l.map (fun r => r.epoch)).drop (offset - oc).toNat).take ((limit - ec).toNat) := by
  intro l
  induction l with
  | nil =>
    intro oc ec _ _
    simp [list_epochs_loop]
  | cons x xs ih =>
    intro oc ec hoc hec
    by_cases h1 : oc < offset
    · have hsub : (offset - oc).toNat = (offset - (oc + 1)).toNat + 1 := by omega
      simp only [list_epochs_loop, if_pos h1, List.map_cons]
      rw [ih (oc + 1) ec (by omega) hec, hsub, List.drop_succ_cons]
    · have hoc' : oc = offset := le_antisymm hoc (not_lt.mp h1)
      have hdrop0 : (offset - oc).toNat = 0 := by omega
      by_cases h2 : ec = limit
      · have htake0 : (limit - ec).toNat = 0 := by omega
        simp [list_epochs_loop, if_neg h1, if_pos h2, htake0]
      · have hlt : ec < limit := lt_of_le_of_ne hec h2
        have hsub : (limit - ec).toNat = (limit - (ec + 1)).toNat + 1 := by omega
        simp only [list_epochs_loop, if_neg h1, if_neg h2, List.map_cons]
        rw [hdrop0, List.drop_zero, hsub, List.take_succ_cons,
          ih oc (ec + 1) hoc (by omega), hdrop0, List.drop_zero]

/-- C2: on a loaded store, for non-negative limit and offset with offset
below the record count, ListEpochs succeeds with exactly the slice
[offset, offset + limit) of the epochs in snapshot order, whose length is
min(limit, total - offset); a limit beyond the remaining records returns
all of them without error. -/
theorem list_epochs_slice (records : List StateVector) (limit offset : ℤ)
    (hl : 0 ≤ limit) (ho : 0 ≤ offset) (hlt : offset < (records.length : ℤ)) :
    get_list_of_epochs records limit offset =
      .ok (((records.map (fun r => r.epoch)).drop offset.toNat).take limit.toNat) ∧
    (((records.map (fun r => r.epoch)).drop offset.toNat).take limit.toNat).length =
      min limit.toNat (records.length - offset.toNat) := by
  have hlen : 0 < records.length := by omega
  constructor
  · have hne : records.isEmpty = false := by
      cases records with
      | nil => simp at hlen
      | cons a l => simp
    have hloop := list_epochs_loop_eq limit offset records 0 0 ho hl
    simp only [sub_zero] at hloop
    simp [get_list_of_epochs, hne, not_lt.mpr hl, not_lt.mpr ho, not_le.mpr hlt, hloop]
  · rw [List.length_take, List.length_drop, List.length_map]

/-- Witness for C2: on a three-record store, limit 5 and offset 1 return
the last two epochs, two being the minimum of 5 and 3 - 1. -/
theorem list_epochs_slice_witness :
    get_list_of_epochs wRecords 5 1 = .ok ["EB", "EC"] ∧
    (["EB", "EC"] : List String).length = min 5 (wRecords.length - 1) := by
  have h := list_epochs_slice wRecords 5 1 (by norm_num) (by norm_num) (by decide)
  constructor
  · rw [h.1]
    decide
  · decide

/-- Counterexample to C3 as stated: on a store with zero records the
epoch list request does not fail with the offset-out-of-range condition;
the deleted-data guard fires first. -/
theorem list_epochs_empty_not_offset_error :
    get_list_of_epochs [] 0 0 = .dataDeleted ∧
    get_list_of_epochs [] 0 0 ≠ .offsetOutOfRange 0 := by
  decide

/-- C3 amended: with a non-negative integer limit, a valid offset at or
beyond the total record count makes ListEpochs fail with the
offset-out-of-range condition whenever the store holds at least one
record; when the total record count is 0 the empty-store condition is
reported instead, for every limit and offset. -/
theorem list_epochs_offset_out_of_range :
    (∀ (records : List StateVector) (limit offset : ℤ),
      records ≠ [] → 0 ≤ limit → 0 ≤ offset → (records.length : ℤ) ≤ offset →
      get_list_of_epochs records limit offset = .offsetOutOfRange records.length) ∧
    (∀ (limit offset : ℤ), get_list_of_epochs [] limit offset = .dataDeleted) := by
  constructor
  · intro records limit offset hne hl ho hge
    have hne' : records.isEmpty = false := by
      simpa [List.isEmpty_eq_false] using hne
    simp [get_list_of_epochs, hne', not_lt.mpr hl, not_lt.mpr ho, hge]
  · intro limit offset
    rfl

/-- Witness for C3 amended: a three-record store with offset 7 fails with
the offset-out-of-range condition carrying total 3. -/
theorem list_epochs_offset_out_of_range_witness :
    wRecords ≠ [] ∧ (0 : ℤ) ≤ 2 ∧ (0 : ℤ) ≤ 7 ∧ (wRecords.length : ℤ) ≤ 7 ∧
    get_list_of_epochs wRecords 2 7 = .offsetOutOfRange 3 := by
  refine ⟨by decide, by decide, by decide, by decide, ?_⟩
  have h := list_epochs_offset_out_of_range.1 wRecords 2 7
    (by decide) (by decide) (by decide) (by decide)
  rw [h]
  decide

/-- If no record of the remaining list is strictly closer than the
running best, the scan loop leaves its state unchanged. -/
theorem nearestLoop_no_update (et : String → ℤ) (now : ℤ) :
    ∀ (l : List StateVector) (s : NearestState),
      (∀ r ∈ l, s.prevDiff ≤ |now - et r.epoch|) →
      nearestLoop et now l s = s := by
  intro l
  induction l with
  | nil => intro s _; rfl
  | cons x xs ih =>
    intro s hall
    have hx : ¬ |now - et x.epoch| < s.prevDiff :=
      not_lt.mpr (hall x (List.mem_cons_self x xs))
    simp only [nearestLoop, if_neg hx]
    exact ih s (fun r hr => hall r (List.mem_cons_of_mem x hr))

/-- Full characterization of the scan loop: either no record beats the
incoming state and the state survives unchanged, or the list splits
around the first record achieving the strict overall minimum, and the
final state carries exactly that record, its distance, and its signed
seconds. -/
theorem nearestLoop_spec (et : String → ℤ) (now : ℤ) :
    ∀ (l : List StateVector) (s : NearestState),
      (nearestLoop et now l s = s ∧ ∀ r ∈ l, s.prevDiff ≤ |now - et r.epoch|) ∨
      (∃ l1 r l2, l = l1 ++ r :: l2 ∧
        |now - et r.epoch| < s.prevDiff ∧
        (∀ r' ∈ l1, |now - et r.epoch| < |now - et r'.epoch|) ∧
        (∀ r' ∈ l2, |now - et r.epoch| ≤ |now - et r'.epoch|) ∧
        nearestLoop et now l s =
          ⟨|now - et r.epoch|, r.epoch, some (et r.epoch - now)⟩) := by
  intro l
  induction l with
  | nil =>
    intro s
    exact Or.inl ⟨rfl, by simp⟩
  | cons x xs ih =>
    intro s
    by_cases hx : |now - et x.epoch| < s.prevDiff
    · have hstep : nearestLoop et now (x :: xs) s =
          nearestLoop et now xs ⟨|now - et x.epoch|, x.epoch, some (et x.epoch - now)⟩ := by
        simp [nearestLoop, hx]
      rcases ih ⟨|now - et x.epoch|, x.epoch, some (et x.epoch - now)⟩ with
        ⟨heq, hall⟩ | ⟨l1, r, l2, hsplit, hlt, h1, h2, heq⟩
      · right
        refine ⟨[], x, xs, rfl, hx, by simp, ?_, by rw [hstep, heq]⟩
        intro r' hr'
        exact hall r' hr'
      · right
        refine ⟨x :: l1, r, l2, by rw [hsplit, List.cons_append], lt_trans hlt hx, ?_, h2,
          by rw [hstep, heq]⟩
        intro r' hr'
        rcases List.mem_cons.mp hr' with h | h
        · subst h
          exact hlt
        · exact h1 r' h
    · have hstep : nearestLoop et now (x :: xs) s = nearestLoop et now xs s := by
        simp [nearestLoop, hx]
      rcases ih s with ⟨heq, hall⟩ | ⟨l1, r, l2, hsplit, hlt, h1, h2, heq⟩
      · left
        refine ⟨by rw [hstep, heq], ?_⟩
        intro r hr
        rcases List.mem_cons.mp hr with h | h
        · subst h
          exact not_lt.mp hx
        · exact hall r h
      · right
        refine ⟨x :: l1, r, l2, by rw [hsplit, List.cons_append], hlt, ?_, h2,
          by rw [hstep, heq]⟩
        intro r' hr'
        rcases List.mem_cons.mp hr' with h | h
        · subst h
          exact lt_of_lt_of_le hlt (not_lt.mp hx)
        · exact h1 r' h

/-- C1: whenever the first record of the store is already nearest to the
reference time (no later record is strictly closer), the scan finishes
with seconds_from_now never assigned, and line 347 raises NameError
instead of returning a response carrying the signed seconds of the
selected record. -/
theorem get_location_now_seconds_unassigned (et : String → ℤ) (now : ℤ)
    (first : StateVector) (rest : List StateVector)
    (hmin : ∀ r ∈ rest, |now - et first.epoch| ≤ |now - et r.epoch|) :
    get_location_now et now (first :: rest) = .nameError first.epoch := by
  have hall : ∀ r ∈ first :: rest,
      (⟨|now - et first.epoch|, first.epoch, (none : Option ℤ)⟩ : NearestState).prevDiff ≤
        |now - et r.epoch| := by
    intro r hr
    rcases List.mem_cons.mp hr with h | h
    · subst h
      exact le_refl _
    · exact hmin r h
  have h := nearestLoop_no_update et now (first :: rest)
    ⟨|now - et first.epoch|, first.epoch, none⟩ hall
  simp [get_location_now, h]

/-- Witness for C1: a single-record store, and a two-record store whose
second record ties but does not beat the first, both end in the NameError
path. -/
theorem get_location_now_seconds_unassigned_witness :
    get_location_now (fun _ => 0) 5
      [ { epoch := "EA", x := 1, y := 1, z := 1, x_dot := 1, y_dot := 1, z_dot := 1 } ]
      = .nameError "EA" ∧
    get_location_now (fun e => if e = "EA" then 0 else 10) 5
      [ { epoch := "EA", x := 1, y := 1, z := 1, x_dot := 1, y_dot := 1, z_dot := 1 },
        { epoch := "EB", x := 2, y := 2, z := 2, x_dot := 2, y_dot := 2, z_dot := 2 } ]
      = .nameError "EA" := by
  constructor
  · exact get_location_now_seconds_unassigned (fun _ => 0) 5 _ [] (by simp)
  · exact get_location_now_seconds_unassigned (fun e => if e = "EA" then 0 else 10) 5 _ _
      (by decide)

/-- C6: the scan of get_location_now selects a record whose absolute time
distance to the reference time is minimal over the whole store, and among
records achieving the minimum it selects the first one in snapshot order;
on the store with records at times T - 10, T + 2 and T + 100 and
reference time T it returns the T + 2 record with signed seconds 2. -/
theorem get_location_now_first_argmin :
    (∀ (et : String → ℤ) (now : ℤ) (first : StateVector) (rest : List StateVector),
      ∃ l1 r l2, first :: rest = l1 ++ r :: l2 ∧
        (nearestLoop et now (first :: rest)
            ⟨|now - et first.epoch|, first.epoch, none⟩).closestEpoch = r.epoch ∧
        (∀ r' ∈ first :: rest, |now - et r.epoch| ≤ |now - et r'.epoch|) ∧
        (∀ r' ∈ l1, |now - et r.epoch| < |now - et r'.epoch|)) ∧
    (∀ T : ℤ, get_location_now
        (fun e => if e = "EA" then T - 10 else if e = "EB" then T + 2 else T + 100) T
        [ { epoch := "EA", x := 1, y := 1, z := 1, x_dot := 1, y_dot := 1, z_dot := 1 },
          { epoch := "EB", x := 2, y := 2, z := 2, x_dot := 2, y_dot := 2, z_dot := 2 },
          { epoch := "EC", x := 3, y := 3, z := 3, x_dot := 3, y_dot := 3, z_dot := 3 } ]
        = .ok "EB" 2) := by
  constructor
  · intro et now first rest
    rcases nearestLoop_spec et now (first :: rest)
        ⟨|now - et first.epoch|, first.epoch, none⟩ with
      ⟨heq, hall⟩ | ⟨l1, r, l2, hsplit, _, h1, h2, heq⟩
    · refine ⟨[], first, rest, rfl, by rw [heq], ?_, by simp⟩
      intro r' hr'
      exact hall r' hr'
    · refine ⟨l1, r, l2, hsplit, by rw [heq], ?_, h1⟩
      intro r' hr'
      rw [hsplit] at hr'
      rcases List.mem_append.mp hr' with h | h
      · exact le_of_lt (h1 r' h)
      · rcases List.mem_cons.mp h with h' | h'
        · subst h'
          exact le_refl _
        · exact h2 r' h'
  · intro T
    have hA : |T - (T - 10)| = 10 := by
      have h : T - (T - 10) = 10 := by ring
      rw [h]
      decide
    have hB : |T - (T + 2)| = 2 := by
      have h : T - (T + 2) = -2 := by ring
      rw [h]
      decide
    have hC : |T - (T + 100)| = 100 := by
      have h : T - (T + 100) = -100 := by ring
      rw [h]
      decide
    have hsec : T + 2 - T = 2 := by ring
    simp [get_location_now, nearestLoop, hA, hB, hC, hsec]

/-- atan2 of 0 over a positive abscissa is 0. -/
theorem atan2_zero_of_pos {x : ℝ} (hx : 0 < x) : atan2 0 x = 0 := by
  simp [atan2, hx, Real.arctan_zero]

/-- degrees of 0 is 0. -/
theorem degrees_zero : degrees 0 = 0 := by
  simp [degrees]

/-- atan2 at the cast point (0, 7000) is 0. -/
theorem atan2_cast_zero_7000 : atan2 ((0 : ℚ) : ℝ) ((7000 : ℚ) : ℝ) = 0 := by
  have h0 : ((0 : ℚ) : ℝ) = 0 := by norm_num
  have h7 : ((7000 : ℚ) : ℝ) = 7000 := by norm_num
  rw [h0, h7]
  exact atan2_zero_of_pos (by norm_num)

/-- The square root of the cast sum 7000 squared plus 0 squared is 7000. -/
theorem sqrt_cast_7000_sq : Real.sqrt (((7000 : ℚ) : ℝ) ^ 2 + ((0 : ℚ) : ℝ) ^ 2) = 7000 := by
  have h : ((7000 : ℚ) : ℝ) ^ 2 + ((0 : ℚ) : ℝ) ^ 2 = (7000 : ℝ) ^ 2 := by
    push_cast
    norm_num
  rw [h, Real.sqrt_sq (by norm_num : (0 : ℝ) ≤ 7000)]

/-- The square root of the cast sum 7000 squared plus two zero squares is
7000. -/
theorem sqrt_cast_7000_sq3 :
    Real.sqrt (((7000 : ℚ) : ℝ) ^ 2 + ((0 : ℚ) : ℝ) ^ 2 + ((0 : ℚ) : ℝ) ^ 2) = 7000 := by
  have h : ((7000 : ℚ) : ℝ) ^ 2 + ((0 : ℚ) : ℝ) ^ 2 + ((0 : ℚ) : ℝ) ^ 2 = (7000 : ℝ) ^ 2 := by
    push_cast
    norm_num
  rw [h, Real.sqrt_sq (by norm_num : (0 : ℝ) ≤ 7000)]

/-- C5: on every record, the transformer computes exactly the formulas of
the spec: latitude atan2(z, sqrt(x^2 + y^2)) in degrees, longitude
atan2(y, x) - ((hour - 12) + minute/60) x (360/24) + 24 in degrees with
hour and minute the components sliced from the epoch, altitude
sqrt(x^2 + y^2 + z^2) - 6371 tagged km, and speed the velocity norm
sqrt(vx^2 + vy^2 + vz^2) tagged km/s. -/
theorem transformer_formulas (sv : StateVector) :
    (convert_j2k_to_geoposition sv).latitude = spec_latitude sv.x sv.y sv.z ∧
    (convert_j2k_to_geoposition sv).longitude =
      spec_longitude sv.x sv.y (epochHrs sv.epoch) (epochMins sv.epoch) ∧
    (convert_j2k_to_geoposition sv).altitude.value = spec_altitude sv.x sv.y sv.z ∧
    (convert_j2k_to_geoposition sv).altitude.units = "km" ∧
    get_speed [sv] sv.epoch = .found "km/s" (spec_speed sv.x_dot sv.y_dot sv.z_dot) := by
  refine ⟨rfl, rfl, rfl, rfl, ?_⟩
  have hfind : ([sv] : List StateVector).find? (fun i => i.epoch == sv.epoch) = some sv :=
    List.find?_cons_of_pos _ (by simp)
  simp [get_speed, hfind, spec_speed]

/-- Counterexample to C4 as stated: at position (7000, 0, 0) with epoch
hour 12 and minute 0, the computed longitude is 24, not 0, because the
source formula always adds the constant 24. -/
theorem geodetic_sanity_longitude_24 :
    (convert_j2k_to_geoposition sv_noon).longitude = 24 ∧
    (convert_j2k_to_geoposition sv_noon).longitude ≠ 0 := by
  have hh : epochHrs "2024-048T12:00:00.000Z" = 12 := by decide
  have hm : epochMins "2024-048T12:00:00.000Z" = 0 := by decide
  have hlon : (convert_j2k_to_geoposition sv_noon).longitude = 24 := by
    simp only [convert_j2k_to_geoposition, sv_noon]
    rw [hh, hm, atan2_cast_zero_7000, degrees_zero]
    norm_num
  exact ⟨hlon, by rw [hlon]; norm_num⟩

/-- C4 amended: at position (7000, 0, 0) with epoch hour 12 and minute 0,
the transformer returns latitude 0, longitude 24, and altitude
7000 - 6371 = 629 tagged km. -/
theorem geodetic_sanity_amended :
    (convert_j2k_to_geoposition sv_noon).latitude = 0 ∧
    (convert_j2k_to_geoposition sv_noon).longitude = 24 ∧
    (convert_j2k_to_geoposition sv_noon).altitude.value = 629 ∧
    (convert_j2k_to_geoposition sv_noon).altitude.units = "km" := by
  have hh : epochHrs "2024-048T12:00:00.000Z" = 12 := by decide
  have hm : epochMins "2024-048T12:00:00.000Z" = 0 := by decide
  refine ⟨?_, ?_, ?_, rfl⟩
  · simp only [convert_j2k_to_geoposition, sv_noon]
    rw [sqrt_cast_7000_sq]
    have h0 : ((0 : ℚ) : ℝ) = 0 := by norm_num
    rw [h0, atan2_zero_of_pos (by norm_num : (0 : ℝ) < 7000), degrees_zero]
  · simp only [convert_j2k_to_geoposition, sv_noon]
    rw [hh, hm, atan2_cast_zero_7000, degrees_zero]
    norm_num
  · simp only [convert_j2k_to_geoposition, sv_noon]
    rw [sqrt_cast_7000_sq3]
    simp [MEAN_EARTH_RADIUS]
    norm_num

/-- C9: the transformer does not normalize longitude to a principal
range: at position (7000, 0, 0) with epoch hour 0 and minute 0 the
longitude is 0 - ((0 - 12) + 0) x 15 + 24 = 204, which lies outside
[-180, 180]. -/
theorem longitude_not_normalized :
    (convert_j2k_to_geoposition sv_midnight).longitude = 204 ∧
    180 < (convert_j2k_to_geoposition sv_midnight).longitude := by
  have hh : epochHrs "2024-048T00:00:00.000Z" = 0 := by decide
  have hm : epochMins "2024-048T00:00:00.000Z" = 0 := by decide
  have hlon : (convert_j2k_to_geoposition sv_midnight).longitude = 204 := by
    simp only [convert_j2k_to_geoposition, sv_midnight]
    rw [hh, hm, atan2_cast_zero_7000, degrees_zero]
    norm_num
  exact ⟨hlon, by rw [hlon]; norm_num⟩

end ISS
